import Mathlib

/-!
Verification of the GHL–Evolution relay service (TypeScript sources:
src/index.ts, src/ghl.ts, src/model.ts).

The development shallowly embeds the parts of the program relevant to the
verified properties:

* the installations table and the operations of class Model (model.ts),
* the GHLCredentialsValidator.validateGHLWebhook middleware (model.ts),
* the axios request/response interceptors and refreshAccessToken of class
  GHL (ghl.ts),
* the /webhook/ghl route handler: UNINSTALL branch and the OutboundMessage
  anti-loop filters (index.ts),
* the /webhook/evolution route handler: the fromMe=true deduplication logic
  (index.ts lines 1080-1230).

JavaScript-specific semantics that matter to the logic (string truthiness,
template interpolation of undefined, split on underscore, parseInt on the
numeric key component, lower-casing, substring containment) are embedded by
small structurally recursive helpers so every definition evaluates inside
the kernel.  External effects (HTTP responses of the CRM and the gateway,
the token endpoint) are parameters of the embedded functions.
-/

namespace GhlApp

/-- Truthiness of an optional JS string: undefined and the empty string are
falsy, every other string is truthy. -/
def jsTruthy : Option String → Bool
  | none => false
  | some s => !s.isEmpty

/-- The value `x || null` for an optional JS string: a falsy value becomes
null (none). -/
def jsOrNone : Option String → Option String
  | none => none
  | some s => if s.isEmpty then none else some s

/-- ASCII lower-casing of a string by mapping Char.toLower over its
characters, as String.prototype.toLowerCase does on the markers used by the
program (structural recursion, kernel-reducible). -/
def lowerStr (s : String) : String := ⟨s.data.map Char.toLower⟩

/-- The value `(x?.toLowerCase()) || ""` used by the anti-loop filters. -/
def jsLower : Option String → String
  | none => ""
  | some s => lowerStr s

/-- Whether the character list p is an initial segment of s. -/
def listStartsWith : List Char → List Char → Bool
  | _, [] => true
  | [], _ :: _ => false
  | c :: cs, p :: ps => c = p && listStartsWith cs ps

/-- Whether the character list p occurs as a contiguous sublist of s. -/
def listContainsSub : List Char → List Char → Bool
  | [], pat => pat.isEmpty
  | c :: cs, pat => listStartsWith (c :: cs) pat || listContainsSub cs pat

/-- String.prototype.includes: substring containment. -/
def strIncludes (s pat : String) : Bool := listContainsSub s.data pat.data

/-- Helper for splitting a character list at underscores (accumulator holds
the current field reversed). -/
def splitCharList : List Char → List Char → List (List Char)
  | [], acc => [acc.reverse]
  | c :: rest, acc =>
    if c = '_' then acc.reverse :: splitCharList rest []
    else splitCharList rest (c :: acc)

/-- JS String.prototype.split with separator underscore, as used on dedup
keys. -/
def splitOnUnderscore (s : String) : List String :=
  (splitCharList s.data []).map (fun l => ⟨l⟩)

/-- Value of a list of decimal digit characters. -/
def digitsVal : List Char → Nat → Nat
  | [], acc => acc
  | c :: cs, acc => digitsVal cs (acc * 10 + (c.toNat - 48))

/-- JS parseInt restricted to the shapes that occur in dedup keys (a string
whose leading characters are decimal digits; no sign, no leading blanks —
the program only parses key components it previously produced with
toString on a Nat).  none plays the role of NaN. -/
def jsParseInt (s : String) : Option Nat :=
  let ds := s.data.takeWhile Char.isDigit
  if ds.isEmpty then none else some (digitsVal ds 0)

/-! Data model of model.ts: the installations table. -/

/-- IntegrationStatus enum of model.ts. -/
inductive IntegrationStatus
  | active
  | error
  | pending
deriving DecidableEq, Repr

/-- One row of the installations table, with the columns read and written
by class Model.  Times are milliseconds since the epoch. -/
structure Row where
  location_id : Option String
  company_id : Option String
  access_token : String
  refresh_token : String
  expires_in : Nat
  scope : String
  token_type : String
  user_type : String
  conversation_provider_id : Option String
  evolution_instance_name : Option String
  integration_status : IntegrationStatus
  last_sync_at : Nat
  client_id : Option String
  client_secret : Option String
  created_at : Nat
  updated_at : Nat
deriving DecidableEq, Repr

/-- The installations table, in insertion order (SELECT without ORDER BY is
modelled as returning rows in this order, rows[0] being the head match). -/
abbrev Store := List Row

/-- The WHERE clause `location_id = $1 OR company_id = $1` shared by the
Model queries. -/
def matchesResource (r : Row) (rid : String) : Bool :=
  r.location_id == some rid || r.company_id == some rid

/-- First row matching a resource id (rows[0] of the SELECT). -/
def findInstallation (st : Store) (rid : String) : Option Row :=
  st.find? (fun r => matchesResource r rid)

/-- Model.getInstallationInfo: the first matching row, or none. -/
def getInstallationInfo (st : Store) (rid : String) : Option Row :=
  findInstallation st rid

/-- Model.getAccessToken: returns the stored access token iff
`updated_at + expires_in seconds` is strictly later than now, else
undefined (none).  now is in milliseconds. -/
def getAccessToken (st : Store) (rid : String) (now : Nat) : Option String :=
  match findInstallation st rid with
  | none => none
  | some r => if now < r.updated_at + r.expires_in * 1000 then some r.access_token else none

/-- Model.getRefreshToken: refresh token of the first matching row. -/
def getRefreshToken (st : Store) (rid : String) : Option String :=
  (findInstallation st rid).map (fun r => r.refresh_token)

/-- Model.checkInstallationExists. -/
def checkInstallationExists (st : Store) (rid : String) : Bool :=
  st.any (fun r => matchesResource r rid)

/-- Model.deleteInstallationInfo: DELETE WHERE location_id = $1 OR
company_id = $1. -/
def deleteInstallationInfo (st : Store) (rid : String) : Store :=
  st.filter (fun r => !matchesResource r rid)

/-- Model.updateIntegrationStatus: UPDATE SET integration_status, updated_at
on every matching row. -/
def updateIntegrationStatus (st : Store) (rid : String) (status : IntegrationStatus) (now : Nat) : Store :=
  st.map (fun r =>
    if matchesResource r rid then
      { r with integration_status := status, updated_at := now }
    else r)

/-- Model.updateLastSyncTime. -/
def updateLastSyncTime (st : Store) (rid : String) (now : Nat) : Store :=
  st.map (fun r =>
    if matchesResource r rid then
      { r with last_sync_at := now, updated_at := now }
    else r)

/-- The argument of Model.saveInstallationInfo (interface
InstallationDetails), with exactly the fields the INSERT reads; optional TS
fields are Options. -/
structure InstallationDetails where
  locationId : Option String
  companyId : Option String
  access_token : String
  refresh_token : String
  expires_in : Nat
  scope : String
  token_type : String
  userType : String
  conversationProviderId : Option String
  evolutionInstanceName : Option String
  integrationStatus : Option IntegrationStatus
  lastSyncAt : Option Nat
  clientId : Option String
  clientSecret : Option String
deriving DecidableEq, Repr

/-- The row built by the VALUES list of the INSERT in saveInstallationInfo
(NOW() for created_at and updated_at, `|| null` for optional strings,
`|| IntegrationStatus.Active` and `|| new Date()` defaults). -/
def insertRowOf (d : InstallationDetails) (now : Nat) : Row :=
  { location_id := jsOrNone d.locationId
    company_id := jsOrNone d.companyId
    access_token := d.access_token
    refresh_token := d.refresh_token
    expires_in := d.expires_in
    scope := d.scope
    token_type := d.token_type
    user_type := d.userType
    conversation_provider_id := jsOrNone d.conversationProviderId
    evolution_instance_name := jsOrNone d.evolutionInstanceName
    integration_status := d.integrationStatus.getD IntegrationStatus.active
    last_sync_at := d.lastSyncAt.getD now
    client_id := jsOrNone d.clientId
    client_secret := jsOrNone d.clientSecret
    created_at := now
    updated_at := now }

/-- The ON CONFLICT (location_id) DO UPDATE SET clause applied to an
existing row r: plain columns are overwritten with the EXCLUDED values,
conversation_provider_id, evolution_instance_name, client_id and
client_secret are COALESCEd with the old values, updated_at becomes NOW();
location_id, company_id and created_at are not in the SET list. -/
def upsertUpdate (d : InstallationDetails) (now : Nat) (r : Row) : Row :=
  { r with
    access_token := d.access_token
    refresh_token := d.refresh_token
    expires_in := d.expires_in
    scope := d.scope
    token_type := d.token_type
    user_type := d.userType
    conversation_provider_id :=
      match jsOrNone d.conversationProviderId with
      | some v => some v
      | none => r.conversation_provider_id
    evolution_instance_name :=
      match jsOrNone d.evolutionInstanceName with
      | some v => some v
      | none => r.evolution_instance_name
    integration_status := d.integrationStatus.getD IntegrationStatus.active
    last_sync_at := d.lastSyncAt.getD now
    client_id :=
      match jsOrNone d.clientId with
      | some v => some v
      | none => r.client_id
    client_secret :=
      match jsOrNone d.clientSecret with
      | some v => some v
      | none => r.client_secret
    updated_at := now }

/-- Model.saveInstallationInfo: throws when neither locationId nor
companyId is truthy; otherwise INSERT ... ON CONFLICT (location_id) DO
UPDATE.  A conflict arises exactly when the inserted location_id is
non-null and a row with that location_id exists (the location_id column is
unique; null location ids never conflict). -/
def saveInstallationInfo (st : Store) (d : InstallationDetails) (now : Nat) : Except String Store :=
  if !jsTruthy d.locationId && !jsTruthy d.companyId then
    Except.error "Location ID ou Company ID obrigatorio"
  else
    match jsOrNone d.locationId with
    | some l =>
      if st.any (fun r => r.location_id == some l) then
        Except.ok (st.map (fun r =>
          if r.location_id == some l then upsertUpdate d now r else r))
      else
        Except.ok (st ++ [insertRowOf d now])
    | none => Except.ok (st ++ [insertRowOf d now])

/-! Token manager of ghl.ts: the axios interceptors of GHL.requests and
GHL.refreshAccessToken. -/

/-- Result of the post-refresh permission probe (GET /users/me with the new
token): success, a 401 response, or some other failure. -/
inductive ProbeResult
  | ok
  | unauthorized
  | otherFailure
deriving DecidableEq, Repr

/-- Error kinds with which refreshAccessToken can reject: the probe
detected missing permissions (the dedicated thrown Error), the probe failed
transiently (rethrown testError), the token endpoint call failed, or the
save failed. -/
inductive RefreshError
  | insufficientPermission
  | probeTransient
  | tokenEndpointFailure
  | saveFailure (msg : String)
deriving DecidableEq, Repr

/-- GHL.refreshAccessToken: posts grant_type=refresh_token to the token
endpoint (its parsed response, or none when the call failed, is the
tokenResp parameter), persists the result via saveInstallationInfo with
locationId set to the resource id, then probes GET /users/me with the
freshly stored token.  A 401 probe marks the installation
integration_status = error and rejects with the dedicated permission error;
any other probe failure is rethrown as a transient error. -/
def refreshAccessToken (st : Store) (rid : String) (tokenResp : Option InstallationDetails)
    (probe : ProbeResult) (now : Nat) : Store × Option RefreshError :=
  match tokenResp with
  | none => (st, some RefreshError.tokenEndpointFailure)
  | some td =>
    match saveInstallationInfo st { td with locationId := some rid } now with
    | Except.error e => (st, some (RefreshError.saveFailure e))
    | Except.ok st1 =>
      match probe with
      | ProbeResult.ok => (st1, none)
      | ProbeResult.unauthorized =>
        (updateIntegrationStatus st1 rid IntegrationStatus.error now,
         some RefreshError.insufficientPermission)
      | ProbeResult.otherFailure => (st1, some RefreshError.probeTransient)

/-- Trace of one request issued through the axios instance built by
GHL.requests: the request interceptor attaches the token returned by
Model.getAccessToken; on a 401 response with the _retry flag unset, the
response interceptor sets _retry, refreshes, re-reads the token and resends
the request once through bare axios (no further interception); every other
response is surfaced. -/
structure RequestTrace where
  finalStatus : Nat
  attempts : Nat
  refreshes : Nat
  resentMarked : Bool
  finalStore : Store
  finalAuth : Option String
deriving DecidableEq, Repr

/-- One request through GHL.requests(resourceId), parameterized by the CRM
server (status as a function of the attached token) and by the effect of
refreshAccessToken on the store. -/
def runAuthedRequest (st : Store) (rid : String) (now : Nat)
    (server : Option String → Nat) (doRefresh : Store → Store) : RequestTrace :=
  let tok := getAccessToken st rid now
  let s1 := server tok
  if s1 = 401 then
    let st1 := doRefresh st
    let tok1 := getAccessToken st1 rid now
    { finalStatus := server tok1, attempts := 2, refreshes := 1,
      resentMarked := true, finalStore := st1, finalAuth := tok1 }
  else
    { finalStatus := s1, attempts := 1, refreshes := 0,
      resentMarked := false, finalStore := st, finalAuth := tok }

/-! Event router of index.ts: the /webhook/ghl handler with its
validateGHLWebhook middleware, the UNINSTALL branch and the OutboundMessage
anti-loop filters. -/

/-- Body of a CRM webhook call, with the fields the handler reads. -/
structure GhlBody where
  eventType : String
  locationId : Option String
  companyId : Option String
  messageId : Option String
  conversationProviderId : Option String
  contactId : Option String
  body : Option String
  direction : Option String
  source : Option String
deriving DecidableEq, Repr

/-- Outcome of the validateGHLWebhook middleware: pass the request on to
the route handler (recording the isUninstallEvent flag it attaches), or
answer with an error status. -/
inductive ValidationResult
  | proceed (isUninstallEvent : Bool)
  | rejected (status : Nat)
deriving DecidableEq, Repr

/-- GHLCredentialsValidator.validateGHLWebhook: UNINSTALL events always
proceed without any validation; otherwise the body must carry a truthy
locationId, an installation must exist for it, its stored client
credentials must be present and must equal the app environment
credentials. -/
def validateGHLWebhook (st : Store) (b : GhlBody) (envClientId envClientSecret : Option String) :
    ValidationResult :=
  if b.eventType = "UNINSTALL" then ValidationResult.proceed true
  else if !jsTruthy b.locationId then ValidationResult.rejected 400
  else
    match getInstallationInfo st (b.locationId.getD "") with
    | none => ValidationResult.rejected 404
    | some inst =>
      if !jsTruthy inst.client_id || !jsTruthy inst.client_secret then
        ValidationResult.rejected 401
      else if inst.client_id != envClientId || inst.client_secret != envClientSecret then
        ValidationResult.rejected 401
      else ValidationResult.proceed false

/-- An HTTP response of a webhook endpoint: status code and the success
flag of the JSON body. -/
structure WebhookResponse where
  status : Nat
  success : Bool
deriving DecidableEq, Repr

/-- UNINSTALL branch of the /webhook/ghl handler: with a truthy locationId
(else a truthy companyId) it deletes the installation when one exists;
deletion errors are swallowed; the branch always answers 200 success. -/
def uninstallBranch (st : Store) (b : GhlBody) : Store × WebhookResponse :=
  if jsTruthy b.locationId then
    let rid := b.locationId.getD ""
    if checkInstallationExists st rid then
      (deleteInstallationInfo st rid, { status := 200, success := true })
    else (st, { status := 200, success := true })
  else if jsTruthy b.companyId then
    let rid := b.companyId.getD ""
    if checkInstallationExists st rid then
      (deleteInstallationInfo st rid, { status := 200, success := true })
    else (st, { status := 200, success := true })
  else (st, { status := 200, success := true })

/-- Reserved system marker checked in the message body. -/
def markerSistema : String := "[sistema]"

/-- Reserved system marker checked in the message body. -/
def markerGhl : String := "[ghl]"

/-- Reserved system marker checked in the message body. -/
def markerIntegration : String := "[integration]"

/-- Suspicious source fragment checked in the source field. -/
def markerWebhook : String := "webhook"

/-- Suspicious source fragment checked in the source field. -/
def markerApi : String := "api"

/-- OutboundMessage branch of the /webhook/ghl handler up to the relay
pipeline: the three anti-loop filters (direction inbound; lower-cased body
containing one of the system markers; lower-cased source containing
webhook or api) discard with 200 success and no gateway call, an
incomplete payload is answered 400, and otherwise the contact lookup /
gateway send pipeline runs (its response and its number of gateway
send-API calls are the deeper parameter). -/
def outboundBranch (b : GhlBody) (deeper : WebhookResponse × Nat) : WebhookResponse × Nat :=
  if b.direction = some "inbound" then ({ status := 200, success := true }, 0)
  else if strIncludes (jsLower b.body) markerSistema
       || strIncludes (jsLower b.body) markerGhl
       || strIncludes (jsLower b.body) markerIntegration then
    ({ status := 200, success := true }, 0)
  else if strIncludes (jsLower b.source) markerWebhook
       || strIncludes (jsLower b.source) markerApi then
    ({ status := 200, success := true }, 0)
  else if !jsTruthy b.conversationProviderId || !jsTruthy b.locationId
       || !jsTruthy b.contactId || !jsTruthy b.body then
    ({ status := 400, success := false }, 0)
  else deeper

/-- The /webhook/ghl route: validateGHLWebhook, then the branch selected by
the event type.  The INSTALL arm only triggers gateway-side provisioning
(setupIntegration: instance verification/creation, with its own
installation updates), elided here together with unhandled event types as
a store-unchanged fall-through without a response (none); no theorem below
reaches this arm. -/
def ghlWebhookRoute (st : Store) (b : GhlBody) (envClientId envClientSecret : Option String)
    (deeper : WebhookResponse × Nat) : Store × Option WebhookResponse × Nat :=
  match validateGHLWebhook st b envClientId envClientSecret with
  | ValidationResult.rejected s => (st, some { status := s, success := false }, 0)
  | ValidationResult.proceed _ =>
    if b.eventType = "UNINSTALL" then
      let r := uninstallBranch st b
      (r.1, some r.2, 0)
    else if b.eventType = "OutboundMessage" then
      let r := outboundBranch b deeper
      (st, some r.1, r.2)
    else (st, none, 0)

/-! Webhook dedup cache and the /webhook/evolution handler (index.ts lines
1030-1230).  The global.recentProcessedMessages map is embedded as a list
of (dedup key, insertion time in ms) pairs; the per-entry setTimeout
eviction (120000 ms) is embedded by regarding an entry as present at time
t exactly when t < insertion time + 120000, since the timer physically
deletes the entry when it fires. -/

/-- The in-memory dedup map with insertion times. -/
abbrev Cache := List (String × Nat)

/-- Fixed TTL of a dedup entry in milliseconds. -/
def dedupTTL : Nat := 120000

/-- Whether an entry is still present (its eviction timer has not fired). -/
def entryLive (now : Nat) (e : String × Nat) : Bool :=
  decide (now < e.2 + dedupTTL)

/-- Whether the map currently holds the key. -/
def cacheHas (c : Cache) (now : Nat) (k : String) : Bool :=
  c.any (fun e => e.1 == k && entryLive now e)

/-- Placeholder JS produces when interpolating undefined into a template
string. -/
def strUndefined : String := "undefined"

/-- data.key of an Evolution messages.upsert payload. -/
structure MessageKey where
  remoteJid : Option String
  fromMe : Bool
  participant : Option String
  id : String
deriving DecidableEq, Repr

/-- data.message content variants distinguished by the handler. -/
inductive MessageContent
  | conversation (text : String)
  | extendedText (text : Option String)
  | image
  | audio
  | video
  | document
  | other
deriving DecidableEq, Repr

/-- data of an Evolution messages.upsert payload.  messageTimestamp is the
provider timestamp in seconds. -/
structure MessageData where
  key : MessageKey
  message : MessageContent
  pushName : Option String
  messageTimestamp : Option Nat
deriving DecidableEq, Repr

/-- Body of an Evolution webhook call. -/
structure EvolutionBody where
  event : String
  instanceName : String
  data : Option MessageData
deriving DecidableEq, Repr

/-- The literal text the handler extracts for a fromMe message (placeholder
tokens for non-text variants, no transcoding). -/
def outboundTextOf : MessageContent → String
  | MessageContent.conversation t => t
  | MessageContent.extendedText t => t.getD ""
  | MessageContent.image => "[IMAGEM]"
  | MessageContent.audio => "[ÁUDIO]"
  | MessageContent.video => "[VÍDEO]"
  | MessageContent.document => "[DOCUMENTO]"
  | MessageContent.other => "[MENSAGEM]"

/-- The timestamp the handler uses: messageData.messageTimestamp ||
Date.now(), with JS falsiness of 0. -/
def keyTs (md : MessageData) (now : Nat) : Nat :=
  match md.messageTimestamp with
  | some t => if t = 0 then now else t
  | none => now

/-- senderPhone of the dedup key: messageData.key.remoteJid interpolated
into the template string. -/
def senderOf (md : MessageData) : String :=
  md.key.remoteJid.getD strUndefined

/-- recipientPhone of the dedup key: messageData.key.participant
interpolated into the template string. -/
def recipientOf (md : MessageData) : String :=
  md.key.participant.getD strUndefined

/-- The fingerprint: messageId_senderPhone_recipientPhone_timestamp. -/
def mkDedupKey (msgId sender recipient : String) (ts : Nat) : String :=
  msgId ++ "_" ++ sender ++ "_" ++ recipient ++ "_" ++ toString ts

/-- Dedup key of an event processed at the given time. -/
def eventDedupKey (md : MessageData) (now : Nat) : String :=
  mkDedupKey md.key.id (senderOf md) (recipientOf md) (keyTs md now)

/-- JS strict equality between a string key component and a possibly
undefined string field: `===` never equates a string with undefined, so a
missing field matches nothing. -/
def jsStrictEq (kp : String) (o : Option String) : Bool :=
  match o with
  | some s => kp == s
  | none => false

/-- The similar-message predicate of the secondary heuristic, applied to a
cached key: split on underscore, require at least 4 parts, the sender and
recipient components must be strictly equal (===) to the RAW
key.remoteJid and key.participant fields of the incoming event — the raw
fields, not their template interpolations, so an absent field can never
match — and the parsed timestamp component (seconds) must lie within
10000 ms of now (a NaN parse fails the comparison). -/
def similarEntry (now : Nat) (sender recipient : Option String) (k : String) : Bool :=
  let ps := splitOnUnderscore k
  decide (ps.length ≥ 4) && jsStrictEq (ps.getD 1 "") sender &&
    jsStrictEq (ps.getD 2 "") recipient &&
    (match jsParseInt (ps.getD 3 "") with
     | some kts => decide ((now : Int) - (kts : Int) * 1000 < 10000)
     | none => false)

/-- Scan of the live cache entries for a similar recent message. -/
def similarRecent (c : Cache) (now : Nat) (sender recipient : Option String) : Bool :=
  (c.filter (entryLive now)).any (fun e => similarEntry now sender recipient e.1)

/-- Result of the relay pipeline processOutboundMessageFromWhatsApp,
supplied as a parameter of the handler embedding. -/
inductive RelayOutcome
  | ok
  | failed (err : String)
deriving DecidableEq, Repr

/-- What one handler invocation did: its HTTP answer, whether
processOutboundMessageFromWhatsApp was called (a relay attempt to the
CRM), and the cache it leaves behind. -/
structure HandlerResult where
  status : Nat
  success : Bool
  relayed : Bool
  cache : Cache
deriving DecidableEq, Repr

/-- Number of relay calls an invocation made. -/
def relayCount (r : HandlerResult) : Nat :=
  if r.relayed then 1 else 0

/-- The recipient the handler relays to: key.participant || key.remoteJid
(JS truthiness). -/
def jsRecipient (md : MessageData) : Option String :=
  if jsTruthy md.key.participant then md.key.participant
  else if jsTruthy md.key.remoteJid then md.key.remoteJid
  else none

/-- The fromMe=true branch of the /webhook/evolution handler: primary
dedup-key lookup (duplicate answers 200 success without relaying), the
secondary similar-message heuristic when the provider timestamp is within
5000 ms of processing time, then insertion of the fingerprint into the
cache, the recipient check (400 when neither participant nor remoteJid is
truthy — note the fingerprint is already recorded at this point), and the
relay call whose success decides between 200 and 500.  Everything from the
cache lookup through the insertion is synchronous in the source (no await
between index.ts lines 1104 and 1164), so a single invocation of this
function embeds one atomic event-loop slice of the handler. -/
def processFromMe (c : Cache) (md : MessageData) (now : Nat) (relay : RelayOutcome) :
    HandlerResult :=
  let k := eventDedupKey md now
  if cacheHas c now k then
    { status := 200, success := true, relayed := false, cache := c }
  else if decide ((now : Int) - (keyTs md now : Int) * 1000 < 5000) &&
          similarRecent c now md.key.remoteJid md.key.participant then
    { status := 200, success := true, relayed := false, cache := c }
  else
    let c1 := (k, now) :: c
    match jsRecipient md with
    | none => { status := 400, success := false, relayed := false, cache := c1 }
    | some _ =>
      match relay with
      | RelayOutcome.ok => { status := 200, success := true, relayed := true, cache := c1 }
      | RelayOutcome.failed _ => { status := 500, success := false, relayed := true, cache := c1 }

/-- The /webhook/evolution handler: events other than messages.upsert are
ignored with 200, a missing data object is a 400, and messages.upsert
splits on key.fromMe — fromMe=true runs the dedup branch, fromMe=false
runs the inbound relay path (a parameter here; it never touches the dedup
cache in the source). -/
def processEvolutionWebhook (c : Cache) (b : EvolutionBody) (now : Nat) (relay : RelayOutcome)
    (inboundPath : MessageData → HandlerResult) : HandlerResult :=
  if b.event ≠ "messages.upsert" then
    { status := 200, success := true, relayed := false, cache := c }
  else
    match b.data with
    | none => { status := 400, success := false, relayed := false, cache := c }
    | some md =>
      if md.key.fromMe then processFromMe c md now relay
      else inboundPath md

/-! Helper lemmas. -/

/-- A truthy optional string survives the `|| null` conversion. -/
lemma jsTruthy_of_jsOrNone_some (o : Option String) (l : String)
    (h : jsOrNone o = some l) : jsTruthy o = true := by
  cases o with
  | none => simp [jsOrNone] at h
  | some s =>
    by_cases he : s.isEmpty
    · simp [jsOrNone, he] at h
    · simp [jsTruthy, he]

/-- jsOrNone of a nonempty literal string. -/
lemma jsOrNone_some_of_ne (s : String) (h : s ≠ "") : jsOrNone (some s) = some s := by
  simp [jsOrNone, String.isEmpty_iff, h]

/-- saveInstallationInfo never throws when the details carry a truthy
locationId. -/
lemma save_ok_of_truthy (st : Store) (d : InstallationDetails) (now : Nat)
    (h : jsTruthy d.locationId = true) :
    ∃ st', saveInstallationInfo st d now = Except.ok st' := by
  unfold saveInstallationInfo
  rw [h]
  simp only [Bool.not_true, Bool.false_and, Bool.false_eq_true, if_false]
  cases jsOrNone d.locationId with
  | none => exact ⟨_, rfl⟩
  | some l =>
    by_cases hc : st.any (fun r => r.location_id == some l)
    · simp only [hc, if_true]; exact ⟨_, rfl⟩
    · simp only [hc, if_false]
      exact ⟨_, rfl⟩

/-- After a successful save whose details carry location id l, some row of
the resulting store has location_id = some l. -/
lemma save_has_location (st : Store) (d : InstallationDetails) (now : Nat) (l : String)
    (st' : Store) (hl : jsOrNone d.locationId = some l)
    (hok : saveInstallationInfo st d now = Except.ok st') :
    ∃ r ∈ st', r.location_id = some l := by
  have htr : jsTruthy d.locationId = true := jsTruthy_of_jsOrNone_some _ _ hl
  unfold saveInstallationInfo at hok
  rw [htr] at hok
  simp only [Bool.not_true, Bool.false_and, Bool.false_eq_true, if_false] at hok
  rw [hl] at hok
  simp only at hok
  by_cases hc : st.any (fun r => r.location_id == some l)
  · rw [if_pos hc] at hok
    obtain ⟨r0, hr0, hr0l⟩ := List.any_eq_true.mp hc
    refine ⟨upsertUpdate d now r0, ?_, ?_⟩
    · cases hok
      have : (fun r => if r.location_id == some l then upsertUpdate d now r else r) r0
          = upsertUpdate d now r0 := by simp [hr0l]
      exact this ▸ List.mem_map_of_mem _ hr0
    · show (upsertUpdate d now r0).location_id = some l
      have : r0.location_id = some l := by simpa using hr0l
      simpa [upsertUpdate] using this
  · rw [if_neg hc] at hok
    cases hok
    refine ⟨insertRowOf d now, ?_, ?_⟩
    · exact List.mem_append_right _ (List.mem_singleton.mpr rfl)
    · simpa [insertRowOf] using hl

/-! Claim theorems. -/

/-- C4: every CRM OutboundMessage event whose declared direction is
inbound, or whose message text contains one of the reserved system markers
(checked on the lower-cased text), or whose declared source string
indicates a webhook/API origin, is discarded by the anti-loop filters with
a 200 success response and zero calls to the gateway send-API, whatever
the downstream relay pipeline would have done. -/
theorem c4_anti_loop_discard (b : GhlBody) (deeper : WebhookResponse × Nat)
    (h : b.direction = some "inbound"
       ∨ strIncludes (jsLower b.body) markerSistema = true
       ∨ strIncludes (jsLower b.body) markerGhl = true
       ∨ strIncludes (jsLower b.body) markerIntegration = true
       ∨ strIncludes (jsLower b.source) markerWebhook = true
       ∨ strIncludes (jsLower b.source) markerApi = true) :
    outboundBranch b deeper = ({ status := 200, success := true }, 0) := by
  unfold outboundBranch
  by_cases h1 : b.direction = some "inbound"
  · rw [if_pos h1]
  rw [if_neg h1]
  by_cases h2 : (strIncludes (jsLower b.body) markerSistema
      || strIncludes (jsLower b.body) markerGhl
      || strIncludes (jsLower b.body) markerIntegration) = true
  · rw [if_pos h2]
  rw [if_neg h2]
  by_cases h3 : (strIncludes (jsLower b.source) markerWebhook
      || strIncludes (jsLower b.source) markerApi) = true
  · rw [if_pos h3]
  exfalso
  simp only [Bool.or_eq_true, not_or, Bool.not_eq_true] at h2 h3
  rcases h with h | h | h | h | h | h
  · exact h1 h
  · exact absurd h (by simp [h2.1.1])
  · exact absurd h (by simp [h2.1.2])
  · exact absurd h (by simp [h2.2])
  · exact absurd h (by simp [h3.1])
  · exact absurd h (by simp [h3.2])

/-- Sample OutboundMessage body for the C4 witness: direction inbound. -/
def bC4 : GhlBody :=
  { eventType := "OutboundMessage", locationId := some "L1", companyId := none,
    messageId := some "M1", conversationProviderId := some "cp", contactId := some "ct",
    body := some "oi", direction := some "inbound", source := some "app" }

/-- Witness for C4 at a concrete inbound-direction event. -/
theorem c4_anti_loop_discard_witness :
    outboundBranch bC4 ({ status := 200, success := true }, 7)
      = ({ status := 200, success := true }, 0) :=
  c4_anti_loop_discard bC4 ({ status := 200, success := true }, 7) (Or.inl rfl)

/-- C6: reactive refresh is bounded to one retry per originating request.
When the first attempt answers 401 and the retried attempt answers 401
again, the request ends surfaced with status 401 after exactly two
attempts, the resubmitted request was marked retried before resubmission,
and for every possible server behavior the request is attempted at most
twice. -/
theorem c6_retry_once_bound (st : Store) (rid : String) (now : Nat)
    (server : Option String → Nat) (doRefresh : Store → Store)
    (h1 : server (getAccessToken st rid now) = 401)
    (h2 : server (getAccessToken (doRefresh st) rid now) = 401) :
    (runAuthedRequest st rid now server doRefresh).finalStatus = 401 ∧
    (runAuthedRequest st rid now server doRefresh).attempts = 2 ∧
    (runAuthedRequest st rid now server doRefresh).resentMarked = true ∧
    ∀ server' : Option String → Nat,
      (runAuthedRequest st rid now server' doRefresh).attempts ≤ 2 := by
  refine ⟨?_, ?_, ?_, ?_⟩
  · simp [runAuthedRequest, h1, h2]
  · simp [runAuthedRequest, h1]
  · simp [runAuthedRequest, h1]
  · intro server'
    by_cases hs : server' (getAccessToken st rid now) = 401 <;>
      simp [runAuthedRequest, hs]

/-- Server used by the C2/C6 witnesses: accepts exactly the token tokW. -/
def serverW : Option String → Nat :=
  fun t =>
    match t with
    | some s => if s = "tokW" then 200 else 401
    | none => 401

/-- Witness for C6: empty store, hence no token, two 401 responses. -/
theorem c6_retry_once_bound_witness :
    (runAuthedRequest [] "locW" 5 serverW id).finalStatus = 401 ∧
    (runAuthedRequest [] "locW" 5 serverW id).attempts = 2 ∧
    (runAuthedRequest [] "locW" 5 serverW id).resentMarked = true ∧
    ∀ server' : Option String → Nat,
      (runAuthedRequest [] "locW" 5 server' id).attempts ≤ 2 :=
  c6_retry_once_bound [] "locW" 5 serverW id (by rfl) (by rfl)

/-- A returned access token is the access_token column of the first row
matching the resource id. -/
lemma getAccessToken_eq_row (st : Store) (rid : String) (t : Nat) (tok : String)
    (h : getAccessToken st rid t = some tok) :
    ∃ r, findInstallation st rid = some r ∧ tok = r.access_token := by
  unfold getAccessToken at h
  cases hf : findInstallation st rid with
  | none => rw [hf] at h; cases h
  | some r =>
    rw [hf] at h
    simp only at h
    refine ⟨r, rfl, ?_⟩
    by_cases hc : t < r.updated_at + r.expires_in * 1000
    · rw [if_pos hc] at h
      exact (Option.some.inj h).symm
    · rw [if_neg hc] at h
      cases h

/-- C2: while the stored token is unexpired, a request through
GHL.requests attaches the cached token and performs zero refresh calls;
two such calls return the identical token; and when the cached token is
absent or expired (getAccessToken yields none, so the CRM answers 401),
the pipeline performs exactly one refresh and the resent request carries
the token read from the refreshed store. -/
theorem c2_cached_token_reuse (st : Store) (rid : String) (t1 t2 t3 : Nat)
    (server : Option String → Nat) (doRefresh : Store → Store) (tok tok2 : String)
    (h1 : getAccessToken st rid t1 = some tok)
    (h2 : getAccessToken st rid t2 = some tok2)
    (hs1 : server (some tok) ≠ 401)
    (hs2 : server (some tok2) ≠ 401)
    (h3 : getAccessToken st rid t3 = none)
    (h4 : server none = 401) :
    (runAuthedRequest st rid t1 server doRefresh).refreshes = 0 ∧
    (runAuthedRequest st rid t2 server doRefresh).refreshes = 0 ∧
    (runAuthedRequest st rid t1 server doRefresh).finalAuth = some tok ∧
    (runAuthedRequest st rid t2 server doRefresh).finalAuth = some tok2 ∧
    tok2 = tok ∧
    (runAuthedRequest st rid t3 server doRefresh).refreshes = 1 ∧
    (runAuthedRequest st rid t3 server doRefresh).finalAuth
      = getAccessToken (doRefresh st) rid t3 := by
  have htoks : tok2 = tok := by
    obtain ⟨r, hr, hrt⟩ := getAccessToken_eq_row st rid t1 tok h1
    obtain ⟨r', hr', hrt'⟩ := getAccessToken_eq_row st rid t2 tok2 h2
    rw [hr] at hr'
    cases Option.some.inj hr'
    rw [hrt, hrt']
  refine ⟨?_, ?_, ?_, ?_, htoks, ?_, ?_⟩
  · simp [runAuthedRequest, h1, hs1]
  · simp [runAuthedRequest, h2, hs2]
  · simp [runAuthedRequest, h1, hs1]
  · simp [runAuthedRequest, h2, hs2]
  · simp [runAuthedRequest, h3, h4]
  · simp [runAuthedRequest, h3, h4]

/-- Installed row used by witnesses: token tokW valid until t = 3600000. -/
def rowW : Row :=
  { location_id := some "locW", company_id := none, access_token := "tokW",
    refresh_token := "rtW", expires_in := 3600, scope := "conversations.message.write",
    token_type := "Bearer", user_type := "Location", conversation_provider_id := some "cpW",
    evolution_instance_name := some "instW", integration_status := IntegrationStatus.active,
    last_sync_at := 0, client_id := some "cidW", client_secret := some "csW",
    created_at := 0, updated_at := 0 }

/-- Witness for C2: two reads inside the validity window reuse tokW with
no refresh; a read past expiry refreshes once. -/
theorem c2_cached_token_reuse_witness :
    (runAuthedRequest [rowW] "locW" 1000 serverW id).refreshes = 0 ∧
    (runAuthedRequest [rowW] "locW" 2000 serverW id).refreshes = 0 ∧
    (runAuthedRequest [rowW] "locW" 1000 serverW id).finalAuth = some "tokW" ∧
    (runAuthedRequest [rowW] "locW" 2000 serverW id).finalAuth = some "tokW" ∧
    "tokW" = "tokW" ∧
    (runAuthedRequest [rowW] "locW" 4000000 serverW id).refreshes = 1 ∧
    (runAuthedRequest [rowW] "locW" 4000000 serverW id).finalAuth
      = getAccessToken (id [rowW]) "locW" 4000000 :=
  c2_cached_token_reuse [rowW] "locW" 1000 2000 4000000 serverW id "tokW" "tokW"
    (by decide) (by decide) (by decide) (by decide) (by decide) (by decide)

/-- C3: when the token endpoint succeeds but the post-refresh permission
probe answers 401, refreshAccessToken marks every installation row of the
tenant integration_status = error (and such a row exists), and rejects
with the dedicated insufficient-permission error — never a silent success,
and distinct from the transient probe failure. -/
theorem c3_probe_unauthorized_marks_error (st : Store) (rid : String)
    (td : InstallationDetails) (now : Nat) (hrid : rid ≠ "") :
    (refreshAccessToken st rid (some td) ProbeResult.unauthorized now).2
      = some RefreshError.insufficientPermission ∧
    (refreshAccessToken st rid (some td) ProbeResult.unauthorized now).2 ≠ none ∧
    RefreshError.insufficientPermission ≠ RefreshError.probeTransient ∧
    (∃ r ∈ (refreshAccessToken st rid (some td) ProbeResult.unauthorized now).1,
       matchesResource r rid = true ∧ r.integration_status = IntegrationStatus.error) ∧
    (∀ r ∈ (refreshAccessToken st rid (some td) ProbeResult.unauthorized now).1,
       matchesResource r rid = true → r.integration_status = IntegrationStatus.error) := by
  have hemp : rid.isEmpty = false := by
    rw [Bool.eq_false_iff]
    intro hh
    exact hrid ((String.isEmpty_iff rid).mp hh)
  have htr : jsTruthy (InstallationDetails.locationId { td with locationId := some rid })
      = true := by
    simp [jsTruthy, hemp]
  obtain ⟨st1, hst1⟩ := save_ok_of_truthy st { td with locationId := some rid } now htr
  have hres : refreshAccessToken st rid (some td) ProbeResult.unauthorized now
      = (updateIntegrationStatus st1 rid IntegrationStatus.error now,
         some RefreshError.insufficientPermission) := by
    simp [refreshAccessToken, hst1]
  rw [hres]
  refine ⟨rfl, by simp, by simp, ?_, ?_⟩
  · obtain ⟨r0, hr0mem, hr0loc⟩ :=
      save_has_location st { td with locationId := some rid } now rid st1
        (jsOrNone_some_of_ne rid hrid) hst1
    have hmatch : matchesResource r0 rid = true := by
      simp [matchesResource, hr0loc]
    refine ⟨{ r0 with integration_status := IntegrationStatus.error, updated_at := now },
      ?_, ?_, rfl⟩
    · have : (fun r => if matchesResource r rid then
          { r with integration_status := IntegrationStatus.error, updated_at := now }
          else r) r0
        = { r0 with integration_status := IntegrationStatus.error, updated_at := now } := by
        simp [hmatch]
      exact this ▸ List.mem_map_of_mem _ hr0mem
    · simp [matchesResource, hr0loc]
  · intro r hrmem hrmatch
    obtain ⟨r0, hr0mem, hr0eq⟩ := List.mem_map.mp hrmem
    by_cases hm : matchesResource r0 rid = true
    · rw [← hr0eq]
      simp [hm]
    · rw [← hr0eq] at hrmatch
      simp only [Bool.not_eq_true] at hm
      simp [hm] at hrmatch

/-- Token-endpoint response used by the C3 witness. -/
def tdW : InstallationDetails :=
  { locationId := some "locW", companyId := none, access_token := "tokW2",
    refresh_token := "rtW2", expires_in := 3600, scope := "conversations.message.write",
    token_type := "Bearer", userType := "Location", conversationProviderId := none,
    evolutionInstanceName := none, integrationStatus := none, lastSyncAt := none,
    clientId := none, clientSecret := none }

/-- Witness for C3 at a concrete tenant and token response. -/
theorem c3_probe_unauthorized_marks_error_witness :
    (refreshAccessToken [rowW] "locW" (some tdW) ProbeResult.unauthorized 50).2
      = some RefreshError.insufficientPermission ∧
    (refreshAccessToken [rowW] "locW" (some tdW) ProbeResult.unauthorized 50).2 ≠ none ∧
    RefreshError.insufficientPermission ≠ RefreshError.probeTransient ∧
    (∃ r ∈ (refreshAccessToken [rowW] "locW" (some tdW) ProbeResult.unauthorized 50).1,
       matchesResource r "locW" = true ∧ r.integration_status = IntegrationStatus.error) ∧
    (∀ r ∈ (refreshAccessToken [rowW] "locW" (some tdW) ProbeResult.unauthorized 50).1,
       matchesResource r "locW" = true → r.integration_status = IntegrationStatus.error) :=
  c3_probe_unauthorized_marks_error [rowW] "locW" tdW 50 (by decide)

/-- An UNINSTALL webhook body with the given identifiers. -/
def ghlUninstallBody (rid : String) (cId mId : Option String) : GhlBody :=
  { eventType := "UNINSTALL", locationId := some rid, companyId := cId, messageId := mId,
    conversationProviderId := none, contactId := none, body := none, direction := none,
    source := none }

/-- Routing an UNINSTALL body with a nonempty location id: delete when an
installation exists, always answer 200 success. -/
lemma route_uninstall_eq (st : Store) (rid : String) (cId mId envCid envCsec : Option String)
    (deeper : WebhookResponse × Nat) (hemp : rid.isEmpty = false) :
    ghlWebhookRoute st (ghlUninstallBody rid cId mId) envCid envCsec deeper =
      ((if checkInstallationExists st rid then deleteInstallationInfo st rid else st),
       some { status := 200, success := true }, 0) := by
  simp only [ghlWebhookRoute, validateGHLWebhook, uninstallBranch, ghlUninstallBody, jsTruthy,
    hemp, Bool.not_false, if_true, Option.getD_some]
  split <;> simp

/-- Rows surviving deleteInstallationInfo do not match the resource id. -/
lemma delete_clean (st : Store) (rid : String) :
    ∀ r ∈ deleteInstallationInfo st rid, matchesResource r rid = false := by
  intro r hr
  have h := List.mem_filter.mp hr
  simpa using h.2

/-- A store in which no row matches the id fails the existence check. -/
lemma clean_not_exists (st : Store) (rid : String)
    (h : ∀ r ∈ st, matchesResource r rid = false) :
    checkInstallationExists st rid = false := by
  simp only [checkInstallationExists, List.any_eq_false]
  intro r hr
  simp [h r hr]

/-- A store failing the existence check has no matching row. -/
lemma not_exists_clean (st : Store) (rid : String)
    (h : checkInstallationExists st rid = false) :
    ∀ r ∈ st, matchesResource r rid = false := by
  intro r hr
  have h' := List.any_eq_false.mp h r hr
  simpa using h'

/-- C5: UNINSTALL is idempotent and exempt from credential validation —
delivering it twice for the same subaccount id answers 200 success both
times and leaves the store without any record matching that id, and the
validator admits an UNINSTALL body against every store and every
environment credential pair (in particular when no installation exists or
credential validation would fail). -/
theorem c5_uninstall_idempotent_exempt (st : Store) (rid : String)
    (cId mId envCid envCsec : Option String) (deeper : WebhookResponse × Nat)
    (hrid : rid ≠ "") :
    (ghlWebhookRoute st (ghlUninstallBody rid cId mId) envCid envCsec deeper).2.1
      = some { status := 200, success := true } ∧
    (ghlWebhookRoute (ghlWebhookRoute st (ghlUninstallBody rid cId mId) envCid envCsec deeper).1
        (ghlUninstallBody rid cId mId) envCid envCsec deeper).2.1
      = some { status := 200, success := true } ∧
    (∀ r ∈ (ghlWebhookRoute
        (ghlWebhookRoute st (ghlUninstallBody rid cId mId) envCid envCsec deeper).1
        (ghlUninstallBody rid cId mId) envCid envCsec deeper).1,
       matchesResource r rid = false) ∧
    (∀ st0 : Store, ∀ e1 e2 : Option String,
       validateGHLWebhook st0 (ghlUninstallBody rid cId mId) e1 e2
         = ValidationResult.proceed true) := by
  have hemp : rid.isEmpty = false := by
    rw [Bool.eq_false_iff]
    intro hh
    exact hrid ((String.isEmpty_iff rid).mp hh)
  have h1 := route_uninstall_eq st rid cId mId envCid envCsec deeper hemp
  have hclean1 : ∀ r ∈ (ghlWebhookRoute st (ghlUninstallBody rid cId mId)
      envCid envCsec deeper).1, matchesResource r rid = false := by
    rw [h1]
    by_cases hex : checkInstallationExists st rid
    · simp only [hex, if_true]
      exact delete_clean st rid
    · simp only [Bool.not_eq_true] at hex
      simp only [hex, Bool.false_eq_true, if_false]
      exact not_exists_clean st rid hex
  have h2 := route_uninstall_eq
    ((ghlWebhookRoute st (ghlUninstallBody rid cId mId) envCid envCsec deeper).1)
    rid cId mId envCid envCsec deeper hemp
  have hnex : checkInstallationExists
      ((ghlWebhookRoute st (ghlUninstallBody rid cId mId) envCid envCsec deeper).1) rid
      = false := clean_not_exists _ rid hclean1
  refine ⟨by rw [h1], by rw [h2], ?_, ?_⟩
  · rw [h2]
    simp only [hnex, Bool.false_eq_true, if_false]
    exact hclean1
  · intro st0 e1 e2
    simp [validateGHLWebhook, ghlUninstallBody]

/-- Witness for C5: double UNINSTALL of locW against a store holding it. -/
theorem c5_uninstall_idempotent_exempt_witness :
    (ghlWebhookRoute [rowW] (ghlUninstallBody "locW" none none) (some "cidW") (some "csW")
        ({ status := 200, success := true }, 0)).2.1
      = some { status := 200, success := true } ∧
    (ghlWebhookRoute (ghlWebhookRoute [rowW] (ghlUninstallBody "locW" none none)
          (some "cidW") (some "csW") ({ status := 200, success := true }, 0)).1
        (ghlUninstallBody "locW" none none) (some "cidW") (some "csW")
        ({ status := 200, success := true }, 0)).2.1
      = some { status := 200, success := true } ∧
    (∀ r ∈ (ghlWebhookRoute (ghlWebhookRoute [rowW] (ghlUninstallBody "locW" none none)
          (some "cidW") (some "csW") ({ status := 200, success := true }, 0)).1
        (ghlUninstallBody "locW" none none) (some "cidW") (some "csW")
        ({ status := 200, success := true }, 0)).1,
       matchesResource r "locW" = false) ∧
    (∀ st0 : Store, ∀ e1 e2 : Option String,
       validateGHLWebhook st0 (ghlUninstallBody "locW" none none) e1 e2
         = ValidationResult.proceed true) :=
  c5_uninstall_idempotent_exempt [rowW] "locW" none none (some "cidW") (some "csW")
    ({ status := 200, success := true }, 0) (by decide)

/-- Stored installation used to refute C7: integration_status is error. -/
def rowC7 : Row :=
  { location_id := some "loc1", company_id := none, access_token := "atOld",
    refresh_token := "rtOld", expires_in := 3600, scope := "conversations.message.write",
    token_type := "Bearer", user_type := "Location", conversation_provider_id := some "cp1",
    evolution_instance_name := some "inst1", integration_status := IntegrationStatus.error,
    last_sync_at := 50, client_id := some "cid1", client_secret := some "cs1",
    created_at := 10, updated_at := 20 }

/-- Update input used to refute C7: it does not supply integrationStatus
(and supplies none of the coalesced fields either). -/
def detC7 : InstallationDetails :=
  { locationId := some "loc1", companyId := none, access_token := "atNew",
    refresh_token := "rtNew", expires_in := 3600, scope := "conversations.message.write",
    token_type := "Bearer", userType := "Location", conversationProviderId := none,
    evolutionInstanceName := none, integrationStatus := none, lastSyncAt := none,
    clientId := none, clientSecret := none }

/-- Counterexample to C7 as stated: saving detC7 over rowC7 takes the
upsert path, yet the integration_status field — which the update does not
supply — does not keep its stored value error: the SET clause overwrites
it with the default active (similarly last_sync_at is overwritten with the
current time).  Only conversation_provider_id, evolution_instance_name,
client_id and client_secret are COALESCEd. -/
theorem c7_counterexample :
    detC7.integrationStatus = none ∧
    rowC7.integration_status = IntegrationStatus.error ∧
    saveInstallationInfo [rowC7] detC7 100 = Except.ok [upsertUpdate detC7 100 rowC7] ∧
    (upsertUpdate detC7 100 rowC7).integration_status = IntegrationStatus.active ∧
    detC7.lastSyncAt = none ∧
    rowC7.last_sync_at = 50 ∧
    (upsertUpdate detC7 100 rowC7).last_sync_at = 100 := by
  refine ⟨rfl, rfl, ?_, rfl, rfl, rfl, rfl⟩
  rfl

/-- C7 amended: saveInstallationInfo is an upsert keyed on location_id
whose update coalesces exactly conversation_provider_id,
evolution_instance_name, client_id and client_secret — when the update
supplies none of those, the stored values of those four fields survive,
while plain columns such as access_token are overwritten. -/
theorem c7_save_coalesces_four_fields (st : Store) (d : InstallationDetails) (now : Nat)
    (l : String) (r : Row) (hmem : r ∈ st) (hloc : r.location_id = some l)
    (hl : jsOrNone d.locationId = some l)
    (hcp : jsOrNone d.conversationProviderId = none)
    (hev : jsOrNone d.evolutionInstanceName = none)
    (hci : jsOrNone d.clientId = none)
    (hcs : jsOrNone d.clientSecret = none) :
    ∃ st', saveInstallationInfo st d now = Except.ok st' ∧
      upsertUpdate d now r ∈ st' ∧
      (upsertUpdate d now r).conversation_provider_id = r.conversation_provider_id ∧
      (upsertUpdate d now r).evolution_instance_name = r.evolution_instance_name ∧
      (upsertUpdate d now r).client_id = r.client_id ∧
      (upsertUpdate d now r).client_secret = r.client_secret ∧
      (upsertUpdate d now r).location_id = r.location_id ∧
      (upsertUpdate d now r).access_token = d.access_token := by
  have htr : jsTruthy d.locationId = true := jsTruthy_of_jsOrNone_some _ _ hl
  have hrl : (r.location_id == some l) = true := by simp [hloc]
  have hany : st.any (fun r => r.location_id == some l) = true :=
    List.any_eq_true.mpr ⟨r, hmem, hrl⟩
  refine ⟨st.map (fun r => if r.location_id == some l then upsertUpdate d now r else r),
    ?_, ?_, ?_, ?_, ?_, ?_, ?_, ?_⟩
  · unfold saveInstallationInfo
    rw [htr]
    simp only [Bool.not_true, Bool.false_and, Bool.false_eq_true, if_false]
    rw [hl]
    simp only [hany, if_true]
  · have : (fun r => if r.location_id == some l then upsertUpdate d now r else r) r
        = upsertUpdate d now r := by simp [hrl]
    exact this ▸ List.mem_map_of_mem _ hmem
  · simp [upsertUpdate, hcp]
  · simp [upsertUpdate, hev]
  · simp [upsertUpdate, hci]
  · simp [upsertUpdate, hcs]
  · simp [upsertUpdate]
  · simp [upsertUpdate]

/-- Witness for the amended C7 at the concrete rowC7 / detC7 pair. -/
theorem c7_save_coalesces_four_fields_witness :
    ∃ st', saveInstallationInfo [rowC7] detC7 100 = Except.ok st' ∧
      upsertUpdate detC7 100 rowC7 ∈ st' ∧
      (upsertUpdate detC7 100 rowC7).conversation_provider_id
        = rowC7.conversation_provider_id ∧
      (upsertUpdate detC7 100 rowC7).evolution_instance_name
        = rowC7.evolution_instance_name ∧
      (upsertUpdate detC7 100 rowC7).client_id = rowC7.client_id ∧
      (upsertUpdate detC7 100 rowC7).client_secret = rowC7.client_secret ∧
      (upsertUpdate detC7 100 rowC7).location_id = rowC7.location_id ∧
      (upsertUpdate detC7 100 rowC7).access_token = detC7.access_token :=
  c7_save_coalesces_four_fields [rowC7] detC7 100 "loc1" rowC7
    (by decide) (by decide) (by decide) (by decide) (by decide) (by decide) (by decide)

/-- A present fingerprint short-circuits the handler into the duplicate
answer. -/
lemma processFromMe_dup (c : Cache) (md : MessageData) (now : Nat) (relay : RelayOutcome)
    (h : cacheHas c now (eventDedupKey md now) = true) :
    processFromMe c md now relay
      = { status := 200, success := true, relayed := false, cache := c } := by
  unfold processFromMe
  simp [h]

/-- A similar-recent match short-circuits the handler into the duplicate
answer. -/
lemma processFromMe_similar (c : Cache) (md : MessageData) (now : Nat) (relay : RelayOutcome)
    (h1 : cacheHas c now (eventDedupKey md now) = false)
    (h2 : decide ((now : Int) - (keyTs md now : Int) * 1000 < 5000) = true)
    (h3 : similarRecent c now md.key.remoteJid md.key.participant = true) :
    processFromMe c md now relay
      = { status := 200, success := true, relayed := false, cache := c } := by
  unfold processFromMe
  simp [h1, h2, h3]

/-- An admitted event records its fingerprint first and then relays; the
handler status reflects the relay outcome. -/
lemma processFromMe_admit (c : Cache) (md : MessageData) (now : Nat) (relay : RelayOutcome)
    (p : String)
    (h1 : cacheHas c now (eventDedupKey md now) = false)
    (h2 : (decide ((now : Int) - (keyTs md now : Int) * 1000 < 5000) &&
           similarRecent c now md.key.remoteJid md.key.participant) = false)
    (hp : jsRecipient md = some p) :
    (processFromMe c md now relay).relayed = true ∧
    (processFromMe c md now relay).cache = (eventDedupKey md now, now) :: c ∧
    (processFromMe c md now relay).status
      = (match relay with
         | RelayOutcome.ok => 200
         | RelayOutcome.failed _ => 500) ∧
    (processFromMe c md now relay).success
      = (match relay with
         | RelayOutcome.ok => true
         | RelayOutcome.failed _ => false) := by
  cases relay <;> simp [processFromMe, h1, h2, hp]

/-- The event timestamp is the provider timestamp whenever one is present
and nonzero, independent of the processing time. -/
lemma keyTs_of_some (md : MessageData) (ts : Nat) (h : md.messageTimestamp = some ts)
    (h0 : ts ≠ 0) (now : Nat) : keyTs md now = ts := by
  unfold keyTs
  rw [h]
  simp [h0]

/-- The fingerprint is processing-time independent whenever the provider
timestamp is present and nonzero. -/
lemma eventDedupKey_of_some (md : MessageData) (ts : Nat) (h : md.messageTimestamp = some ts)
    (h0 : ts ≠ 0) (now : Nat) :
    eventDedupKey md now = mkDedupKey md.key.id (senderOf md) (recipientOf md) ts := by
  unfold eventDedupKey
  rw [keyTs_of_some md ts h h0 now]

/-- Lookup in a singleton cache. -/
lemma cacheHas_singleton (k k' : String) (t now : Nat) :
    cacheHas [(k, t)] now k' = ((k == k') && decide (now < t + dedupTTL)) := by
  simp [cacheHas, entryLive]

/-- The empty map holds nothing. -/
lemma cacheHas_nil (now : Nat) (k : String) : cacheHas [] now k = false := rfl

/-- The empty map has no similar entries. -/
lemma similarRecent_nil (now : Nat) (s r : Option String) : similarRecent [] now s r = false := rfl

/-- C1: submitting the same fromMe=true messages.upsert event to the
gateway webhook twice, the second time within the 120 s TTL of the first
admission, relays exactly once — the duplicate is answered 200 success
without relaying — and submitting the identical event once more after the
TTL expired (so the eviction timer has removed the entry) relays again. -/
theorem c1_dedup_ttl (md : MessageData) (inst : String) (ts t0 t1 t2 : Nat)
    (o0 o1 o2 : RelayOutcome) (inboundPath : MessageData → HandlerResult) (p : String)
    (hfm : md.key.fromMe = true)
    (hts : md.messageTimestamp = some ts) (hts0 : ts ≠ 0)
    (hpast : ts * 1000 ≤ t0)
    (h1in : t1 < t0 + dedupTTL) (h2out : t0 + dedupTTL ≤ t2)
    (hp : jsRecipient md = some p)
    (r0 r1 r2 : HandlerResult)
    (hr0 : r0 = processEvolutionWebhook [] ⟨"messages.upsert", inst, some md⟩ t0 o0 inboundPath)
    (hr1 : r1 = processEvolutionWebhook r0.cache ⟨"messages.upsert", inst, some md⟩ t1 o1
      inboundPath)
    (hr2 : r2 = processEvolutionWebhook r1.cache ⟨"messages.upsert", inst, some md⟩ t2 o2
      inboundPath) :
    relayCount r0 + relayCount r1 = 1 ∧
    r1.status = 200 ∧ r1.success = true ∧
    r2.relayed = true := by
  have hwrap : ∀ (c : Cache) (t : Nat) (o : RelayOutcome),
      processEvolutionWebhook c ⟨"messages.upsert", inst, some md⟩ t o inboundPath
        = processFromMe c md t o := by
    intro c t o
    simp [processEvolutionWebhook, hfm]
  have hkey : ∀ t : Nat, eventDedupKey md t
      = mkDedupKey md.key.id (senderOf md) (recipientOf md) ts := fun t =>
    eventDedupKey_of_some md ts hts hts0 t
  -- first submission: empty cache admits and relays
  have hadm0 := processFromMe_admit [] md t0 o0 p (cacheHas_nil t0 _)
    (by rw [similarRecent_nil]; simp) hp
  rw [hwrap] at hr0
  have hr0rel : r0.relayed = true := by rw [hr0]; exact hadm0.1
  have hr0cache : r0.cache = [(eventDedupKey md t0, t0)] := by rw [hr0]; exact hadm0.2.1
  -- second submission within the TTL: the fingerprint is present
  have hhas1 : cacheHas r0.cache t1 (eventDedupKey md t1) = true := by
    rw [hr0cache, cacheHas_singleton, hkey t0, hkey t1]
    simp only [beq_self_eq_true, Bool.true_and]
    exact decide_eq_true h1in
  rw [hwrap] at hr1
  have hr1eq : r1 = { status := 200, success := true, relayed := false, cache := r0.cache } := by
    rw [hr1]
    exact processFromMe_dup r0.cache md t1 o1 hhas1
  -- third submission after TTL expiry: entry evicted, heuristic skipped
  have hhas2 : cacheHas r1.cache t2 (eventDedupKey md t2) = false := by
    rw [hr1eq]
    simp only
    rw [hr0cache, cacheHas_singleton]
    have : decide (t2 < t0 + dedupTTL) = false := by
      rw [decide_eq_false_iff_not]
      omega
    simp [this]
  have hsim2 : decide ((t2 : Int) - (keyTs md t2 : Int) * 1000 < 5000) = false := by
    rw [keyTs_of_some md ts hts hts0 t2]
    rw [decide_eq_false_iff_not]
    have hTTL : dedupTTL = 120000 := rfl
    omega
  have hadm2 := processFromMe_admit r1.cache md t2 o2 p hhas2
    (by rw [hsim2]; simp) hp
  rw [hwrap] at hr2
  have hr2rel : r2.relayed = true := by rw [hr2]; exact hadm2.1
  refine ⟨?_, ?_, ?_, hr2rel⟩
  · have h1f : r1.relayed = false := by rw [hr1eq]
    simp [relayCount, hr0rel, h1f]
  · rw [hr1eq]
  · rw [hr1eq]

/-- Sample fromMe=true event used by witnesses: sender S, recipient R,
message id m1, provider timestamp 999 s. -/
def mdW : MessageData :=
  { key := { remoteJid := some "S", fromMe := true, participant := some "R", id := "m1" }
    message := MessageContent.conversation "oi"
    pushName := some "Agente"
    messageTimestamp := some 999 }

/-- Evolution webhook body wrapping mdW. -/
def evW : EvolutionBody :=
  { event := "messages.upsert", instanceName := "instW", data := some mdW }

/-- Inbound path used by witnesses (never reached for fromMe=true). -/
def inbW : MessageData → HandlerResult :=
  fun _ => { status := 200, success := true, relayed := false, cache := [] }

/-- Witness for C1: the event at t = 999000 ms, its redelivery 1 ms later,
and a redelivery at TTL expiry. -/
theorem c1_dedup_ttl_witness :
    relayCount (processEvolutionWebhook [] evW 999000 RelayOutcome.ok inbW)
      + relayCount (processEvolutionWebhook
          (processEvolutionWebhook [] evW 999000 RelayOutcome.ok inbW).cache
          evW 999001 RelayOutcome.ok inbW) = 1 ∧
    (processEvolutionWebhook (processEvolutionWebhook [] evW 999000 RelayOutcome.ok inbW).cache
        evW 999001 RelayOutcome.ok inbW).status = 200 ∧
    (processEvolutionWebhook (processEvolutionWebhook [] evW 999000 RelayOutcome.ok inbW).cache
        evW 999001 RelayOutcome.ok inbW).success = true ∧
    (processEvolutionWebhook
        (processEvolutionWebhook (processEvolutionWebhook [] evW 999000 RelayOutcome.ok inbW).cache
          evW 999001 RelayOutcome.ok inbW).cache
        evW 1119000 RelayOutcome.ok inbW).relayed = true :=
  c1_dedup_ttl mdW "instW" 999 999000 999001 1119000 RelayOutcome.ok RelayOutcome.ok
    RelayOutcome.ok inbW "R" rfl rfl (by decide) (by decide) (by decide) (by decide) rfl
    _ _ _ rfl rfl rfl

/-- C9: the check-then-insert of the dedup branch runs in one synchronous
event-loop slice (no await separates the lookup at index.ts:1104 from the
insertion at 1164), so two near-simultaneous deliveries of the identical
fingerprint execute the slice in some order; whichever runs second finds
the entry of the first.  Exactly the first delivery wins admission and is
relayed; the second is answered as a duplicate no-op success (both orders
of the two identical deliveries are literally this statement). -/
theorem c9_concurrent_single_admission (md : MessageData) (t : Nat) (o o' : RelayOutcome)
    (p : String) (hp : jsRecipient md = some p)
    (r1 r2 : HandlerResult)
    (hr1 : r1 = processFromMe [] md t o)
    (hr2 : r2 = processFromMe r1.cache md t o') :
    r1.relayed = true ∧
    r2.relayed = false ∧ r2.success = true ∧ r2.status = 200 ∧ r2.cache = r1.cache := by
  have hadm := processFromMe_admit [] md t o p (cacheHas_nil t _)
    (by rw [similarRecent_nil]; simp) hp
  have hr1rel : r1.relayed = true := by rw [hr1]; exact hadm.1
  have hr1cache : r1.cache = [(eventDedupKey md t, t)] := by rw [hr1]; exact hadm.2.1
  have hhas : cacheHas r1.cache t (eventDedupKey md t) = true := by
    rw [hr1cache, cacheHas_singleton]
    simp only [beq_self_eq_true, Bool.true_and]
    apply decide_eq_true
    have hTTL : dedupTTL = 120000 := rfl
    omega
  have hr2eq : r2 = { status := 200, success := true, relayed := false, cache := r1.cache } := by
    rw [hr2]
    exact processFromMe_dup r1.cache md t o' hhas
  exact ⟨hr1rel, by rw [hr2eq], by rw [hr2eq], by rw [hr2eq], by rw [hr2eq]⟩

/-- Relay failure message used by witnesses. -/
def errW : String := "gateway failure"

/-- Witness for C9 at the sample event, the loser carrying a different
relay outcome than the winner. -/
theorem c9_concurrent_single_admission_witness :
    (processFromMe [] mdW 5 RelayOutcome.ok).relayed = true ∧
    (processFromMe (processFromMe [] mdW 5 RelayOutcome.ok).cache mdW 5
        (RelayOutcome.failed errW)).relayed = false ∧
    (processFromMe (processFromMe [] mdW 5 RelayOutcome.ok).cache mdW 5
        (RelayOutcome.failed errW)).success = true ∧
    (processFromMe (processFromMe [] mdW 5 RelayOutcome.ok).cache mdW 5
        (RelayOutcome.failed errW)).status = 200 ∧
    (processFromMe (processFromMe [] mdW 5 RelayOutcome.ok).cache mdW 5
        (RelayOutcome.failed errW)).cache = (processFromMe [] mdW 5 RelayOutcome.ok).cache :=
  c9_concurrent_single_admission mdW 5 RelayOutcome.ok (RelayOutcome.failed errW) "R" rfl
    _ _ rfl rfl

/-- C10: the fingerprint is recorded before the relay attempt, and a relay
failure (500 answer) leaves the entry in place, so a redelivery within the
TTL is classified as a duplicate and answered 200 success with no relay
attempt — the message reaches the CRM from neither call. -/
theorem c10_failed_relay_keeps_entry (md : MessageData) (ts t0 t1 : Nat) (err : String)
    (o1 : RelayOutcome) (p : String)
    (hts : md.messageTimestamp = some ts) (hts0 : ts ≠ 0)
    (h1in : t1 < t0 + dedupTTL)
    (hp : jsRecipient md = some p)
    (r0 r1 : HandlerResult)
    (hr0 : r0 = processFromMe [] md t0 (RelayOutcome.failed err))
    (hr1 : r1 = processFromMe r0.cache md t1 o1) :
    r0.status = 500 ∧ r0.success = false ∧ r0.relayed = true ∧
    r0.cache = [(eventDedupKey md t0, t0)] ∧
    r1.status = 200 ∧ r1.success = true ∧ r1.relayed = false ∧ r1.cache = r0.cache := by
  have hadm := processFromMe_admit [] md t0 (RelayOutcome.failed err) p (cacheHas_nil t0 _)
    (by rw [similarRecent_nil]; simp) hp
  have hr0c : r0.cache = [(eventDedupKey md t0, t0)] := by rw [hr0]; exact hadm.2.1
  have hhas : cacheHas r0.cache t1 (eventDedupKey md t1) = true := by
    rw [hr0c, cacheHas_singleton]
    rw [eventDedupKey_of_some md ts hts hts0 t0, eventDedupKey_of_some md ts hts hts0 t1]
    simp only [beq_self_eq_true, Bool.true_and]
    exact decide_eq_true h1in
  have hr1eq : r1 = { status := 200, success := true, relayed := false, cache := r0.cache } := by
    rw [hr1]
    exact processFromMe_dup r0.cache md t1 o1 hhas
  refine ⟨?_, ?_, ?_, hr0c, by rw [hr1eq], by rw [hr1eq], by rw [hr1eq], by rw [hr1eq]⟩
  · rw [hr0]; exact hadm.2.2.1
  · rw [hr0]; exact hadm.2.2.2
  · rw [hr0]; exact hadm.1

/-- Witness for C10: relay fails at t = 999000 ms, redelivery 1 ms later. -/
theorem c10_failed_relay_keeps_entry_witness :
    (processFromMe [] mdW 999000 (RelayOutcome.failed errW)).status = 500 ∧
    (processFromMe [] mdW 999000 (RelayOutcome.failed errW)).success = false ∧
    (processFromMe [] mdW 999000 (RelayOutcome.failed errW)).relayed = true ∧
    (processFromMe [] mdW 999000 (RelayOutcome.failed errW)).cache
      = [(eventDedupKey mdW 999000, 999000)] ∧
    (processFromMe (processFromMe [] mdW 999000 (RelayOutcome.failed errW)).cache mdW 999001
        RelayOutcome.ok).status = 200 ∧
    (processFromMe (processFromMe [] mdW 999000 (RelayOutcome.failed errW)).cache mdW 999001
        RelayOutcome.ok).success = true ∧
    (processFromMe (processFromMe [] mdW 999000 (RelayOutcome.failed errW)).cache mdW 999001
        RelayOutcome.ok).relayed = false ∧
    (processFromMe (processFromMe [] mdW 999000 (RelayOutcome.failed errW)).cache mdW 999001
        RelayOutcome.ok).cache = (processFromMe [] mdW 999000 (RelayOutcome.failed errW)).cache :=
  c10_failed_relay_keeps_entry mdW 999 999000 999001 errW RelayOutcome.ok "R" rfl
    (by decide) (by decide) rfl _ _ rfl rfl

/-- Cached dedup key for the C8 counterexample: same sender/recipient pair
S/R as mdW, but its embedded provider timestamp component is 1 s. -/
def oldKeyC8 : String := "m0_S_R_1"

/-- Cache for the C8 counterexample: oldKeyC8 was inserted at 999000 ms —
one second before the event processed at 1000000 ms. -/
def cacheC8 : Cache := [(oldKeyC8, 999000)]

/-- Counterexample to C8 as stated: the incoming fromMe event mdW has a
provider timestamp within 5 s of processing time, and the cache holds a
live entry that was inserted within the last 10 s and shares the
sender/recipient pair — yet the handler does not treat it as a duplicate:
it admits and relays the event, because the scan compares now against the
timestamp component embedded in the cached key (here 1 s, ancient), not
against the entry's insertion time. -/
theorem c8_counterexample :
    ((1000000 : Int) - (999 : Int) * 1000 < 5000) ∧
    keyTs mdW 1000000 = 999 ∧
    ((1000000 : Nat) - 999000 < 10000) ∧
    entryLive 1000000 (oldKeyC8, 999000) = true ∧
    (splitOnUnderscore oldKeyC8).getD 1 "" = senderOf mdW ∧
    (splitOnUnderscore oldKeyC8).getD 2 "" = recipientOf mdW ∧
    (processFromMe cacheC8 mdW 1000000 RelayOutcome.ok).relayed = true ∧
    (processFromMe cacheC8 mdW 1000000 RelayOutcome.ok).cache
      = (eventDedupKey mdW 1000000, 1000000) :: cacheC8 := by
  refine ⟨by decide, by decide, by decide, by decide, by decide, by decide, ?_, ?_⟩ <;> decide

/-- C8 amended: when the event's provider timestamp is within 5 s of
processing time, the handler scans the live dedup entries and strictly
compares (===) their sender and recipient key components with the raw
key.remoteJid and key.participant fields of the incoming event — so the
heuristic can only ever fire when both fields are present — and requires
the embedded timestamp component of the key (the prior event's provider
timestamp, parsed from the fourth underscore-separated field) to be
within 10 s of processing time; such a match is treated as a duplicate:
200 success, no relay, cache unchanged. -/
theorem c8_similar_heuristic_amended (c : Cache) (md : MessageData) (now : Nat)
    (o : RelayOutcome) (k0 : String) (i0 : Nat) (m0 s0 r0 t0str : String) (kts : Nat)
    (hmem : (k0, i0) ∈ c) (hlive : entryLive now (k0, i0) = true)
    (hsplit : splitOnUnderscore k0 = [m0, s0, r0, t0str])
    (hpi : jsParseInt t0str = some kts)
    (hkt : (now : Int) - (kts : Int) * 1000 < 10000)
    (hs : md.key.remoteJid = some s0) (hr : md.key.participant = some r0)
    (htd : (now : Int) - (keyTs md now : Int) * 1000 < 5000)
    (hnod : cacheHas c now (eventDedupKey md now) = false) :
    processFromMe c md now o
      = { status := 200, success := true, relayed := false, cache := c } := by
  have hsim : similarRecent c now md.key.remoteJid md.key.participant = true := by
    unfold similarRecent
    rw [List.any_eq_true]
    refine ⟨(k0, i0), List.mem_filter.mpr ⟨hmem, hlive⟩, ?_⟩
    have h4 : decide ((now : Int) - (kts : Int) * 1000 < 10000) = true := decide_eq_true hkt
    simp [similarEntry, jsStrictEq, hsplit, hpi, hs, hr, h4]
  exact processFromMe_similar c md now o hnod (decide_eq_true htd) hsim

/-- Cached dedup key for the amended-C8 witness: pair S/R with embedded
timestamp 998 s. -/
def oldKeyC8b : String := "m0_S_R_998"

/-- Cache for the amended-C8 witness. -/
def cacheC8b : Cache := [(oldKeyC8b, 999000)]

/-- Witness for the amended C8: mdW processed at 1000000 ms against a live
entry whose embedded timestamp 998 s is 2 s old. -/
theorem c8_similar_heuristic_amended_witness :
    processFromMe cacheC8b mdW 1000000 RelayOutcome.ok
      = { status := 200, success := true, relayed := false, cache := cacheC8b } :=
  c8_similar_heuristic_amended cacheC8b mdW 1000000 RelayOutcome.ok oldKeyC8b 999000
    "m0" "S" "R" "998" 998 (by decide) (by decide) (by decide) (by decide) (by decide)
    (by decide) (by decide) (by decide) (by decide)

end GhlApp
